import Mathlib

/-
  Verification of the SurveyUploader control (src/SurveyUploader/index.ts).

  The source file contains two copies of the `SurveyUploader` class.  The
  first copy is the authoritative implementation; the second copy differs in
  its `parseExcelData` and `updateDataverseRecord` bodies.  We embed the
  data-bearing logic of both copies: the Excel-grid parser, the per-record
  Dataverse reconciliation (`updateDataverseRecord`), the sequential batch
  loop (`processDataverseUpdates`) with its progress emissions, and the
  progress emissions of `uploadAndProcessFile`.

  Modelling conventions:
  - A spreadsheet cell (an entry of the `jsonData : any[]` rows) is a string,
    a number, `null`, or `undefined` (out-of-range index access).
  - A row of `jsonData` is `Option (List Cell)`: `none` models a row that is
    falsy or not array-shaped (the `row && Array.isArray(row)` guard in copy
    one, the `row &&` guard in copy two); `some cells` models an array row.
  - Thrown JavaScript errors are values of `JsError` (a `message` field that
    may be absent, plus the `toString()` rendering); `await` calls that can
    throw are oracle functions returning `Except JsError _`.
  - `Math.round(x)` for the nonnegative rational `num / den` is
    `(2 * num + den) / (2 * den)` in natural division, i.e. half-up rounding.
  - Calls made to the Dataverse web API are recorded in an `ApiCall` log so
    that "the remote update operation is never invoked" is expressible.
-/

inductive Cell where
  | str (s : String)
  | num (n : Int)
  | null
  | undef
  deriving DecidableEq

/-- A row of the decoded sheet: `none` when the element is falsy or not an
array (skipped by both parser copies), `some cells` for an array row. -/
abbrev RawRow := Option (List Cell)

/-- JavaScript `row[i]`: out-of-range access yields `undefined`. -/
def cellAt (cells : List Cell) (i : Nat) : Cell :=
  cells.getD i Cell.undef

/-- JavaScript `s.trim()`: drops leading and trailing whitespace.  Modelled
over the character list so that the kernel can evaluate it on concrete
inputs (the core `String.trim` does not reduce definitionally). -/
def jsTrim (s : String) : String :=
  String.mk (((s.data.dropWhile Char.isWhitespace).reverse.dropWhile Char.isWhitespace).reverse)

/-- JavaScript `v.toString()` for the cell values the source dereferences
(the guards ensure this is only reached on strings and numbers). -/
def cellToString : Cell → String
  | Cell.str s => s
  | Cell.num n => toString n
  | Cell.null => "null"
  | Cell.undef => "undefined"

/-- The guard `v !== undefined && v !== null && v !== ""` used by the first
copy of `parseExcelData` on the cells it reads. -/
def jsNonBlank (c : Cell) : Prop :=
  c ≠ Cell.undef ∧ c ≠ Cell.null ∧ c ≠ Cell.str ""

instance (c : Cell) : Decidable (jsNonBlank c) := by
  unfold jsNonBlank
  infer_instance

/-- The extracted record shape (`interface ExcelRow`). -/
structure ExcelRow where
  ID : String
  Response : String
  Notes : String
  deriving DecidableEq

/-- Copy one, `parseExcelData`, the `id` computation for one row:
`if (row[0] !== undefined && row[0] !== null && row[0] !== "") id = row[0].toString().trim()`. -/
def rowIdOf (cells : List Cell) : String :=
  if jsNonBlank (cellAt cells 0) then jsTrim (cellToString (cellAt cells 0)) else ""

/-- Copy one, `parseExcelData`, the `response` computation for one row:
column index 2 when present (`row.length > 2`) and non-blank, else column
index 1 when present and non-blank, else the empty string. -/
def responseOfRow (cells : List Cell) : String :=
  if 2 < cells.length ∧ jsNonBlank (cellAt cells 2) then
    jsTrim (cellToString (cellAt cells 2))
  else if 1 < cells.length ∧ jsNonBlank (cellAt cells 1) then
    jsTrim (cellToString (cellAt cells 1))
  else ""

/-- Copy one, `parseExcelData`, the `notes` computation for one row: column
index 3 when present and non-blank, else column index 2 when present,
non-blank and `!response` (the response variable is falsy, i.e. empty). -/
def notesOfRow (cells : List Cell) : String :=
  if 3 < cells.length ∧ jsNonBlank (cellAt cells 3) then
    jsTrim (cellToString (cellAt cells 3))
  else if 2 < cells.length ∧ jsNonBlank (cellAt cells 2) ∧ responseOfRow cells = "" then
    jsTrim (cellToString (cellAt cells 2))
  else ""

/-- Copy one, `parseExcelData`, the body of the loop for one data row:
requires `row && Array.isArray(row) && row.length >= 1`, then pushes a
record exactly when the computed id is non-empty. -/
def parseRowC1 : RawRow → Option ExcelRow
  | none => none
  | some cells =>
    if 1 ≤ cells.length then
      if rowIdOf cells ≠ "" then
        some { ID := rowIdOf cells, Response := responseOfRow cells, Notes := notesOfRow cells }
      else none
    else none

/-- Copy one, `parseExcelData`, the `for (let i = 1; ...)` accumulation over
the data rows. -/
def parseLoopC1 : List RawRow → List ExcelRow
  | [] => []
  | row :: rest =>
    match parseRowC1 row with
    | some r => r :: parseLoopC1 rest
    | none => parseLoopC1 rest

/-- The error message thrown by both copies of `parseExcelData` when the
grid has fewer than two rows. -/
def emptyInputMsg : String :=
  "Excel file must contain at least a header row and one data row"

/-- Copy one of `parseExcelData` (lines 209-287): throws on fewer than two
rows, otherwise folds the loop body over the rows after the header. -/
def parseExcelData (jsonData : List RawRow) : Except String (List ExcelRow) :=
  if jsonData.length < 2 then
    Except.error emptyInputMsg
  else
    Except.ok (parseLoopC1 (jsonData.drop 1))

/-- JavaScript `row[i]?.toString() || ""` used by the second parser copy:
`null` and `undefined` short-circuit to `undefined`, which `|| ""` turns
into the empty string (as does an empty string result). -/
def optCellToString : Option Cell → String
  | none => ""
  | some Cell.undef => ""
  | some Cell.null => ""
  | some (Cell.str s) => s
  | some (Cell.num n) => toString n

/-- Copy two, `parseExcelData`, the body of the loop for one data row:
requires `row && row.length >= 3` and pushes unconditionally, with no
trimming, no id requirement and no column fallback. -/
def parseRowV2 : RawRow → Option ExcelRow
  | none => none
  | some cells =>
    if 3 ≤ cells.length then
      some { ID := optCellToString (cells.get? 0),
             Response := optCellToString (cells.get? 2),
             Notes := optCellToString (cells.get? 3) }
    else none

/-- Copy two, `parseExcelData`, the loop accumulation. -/
def parseLoopV2 : List RawRow → List ExcelRow
  | [] => []
  | row :: rest =>
    match parseRowV2 row with
    | some r => r :: parseLoopV2 rest
    | none => parseLoopV2 rest

/-- Copy two of `parseExcelData` (lines 874-897). -/
def parseExcelDataV2 (jsonData : List RawRow) : Except String (List ExcelRow) :=
  if jsonData.length < 2 then
    Except.error emptyInputMsg
  else
    Except.ok (parseLoopV2 (jsonData.drop 1))

/-- A thrown JavaScript error as observed by the source: an optional
`message` property and the `toString()` rendering. -/
structure JsError where
  message : Option String
  asString : String
  deriving DecidableEq

/-- `e?.message || alt`: the message when present and truthy, else `alt`. -/
def jsMessageOr (e : JsError) (alt : String) : String :=
  match e.message with
  | some m => if m = "" then alt else m
  | none => alt

/-- `(error as any)?.message || error?.toString() || "Unknown error"` from
the catch-all branch of the first `updateDataverseRecord`. -/
def updateFailedDetail (e : JsError) : String :=
  match e.message with
  | some m =>
    if m = "" then (if e.asString = "" then "Unknown error" else e.asString) else m
  | none => if e.asString = "" then "Unknown error" else e.asString

/-- A Dataverse entity as consumed by the source: the fields it selects and
dereferences. -/
structure Entity where
  afsdc_questionresponseinstanceid : String
  afsdc_name : String
  deriving DecidableEq

/-- The response of `webAPI.retrieveMultipleRecords`. -/
structure RetrieveResponse where
  entities : List Entity
  deriving DecidableEq

/-- The partial-update payload: `afsdc_response` and `afsdc_comments` keys,
each present only when set (`Object.keys(updateData)` counts the set ones). -/
structure UpdateData where
  afsdc_response : Option String := none
  afsdc_comments : Option String := none
  deriving DecidableEq

/-- `Object.keys(updateData).length === 0`. -/
def UpdateData.isEmptyPayload (u : UpdateData) : Bool :=
  u.afsdc_response.isNone && u.afsdc_comments.isNone

/-- The result shape returned per record (`interface UpdateResult`). -/
structure UpdateResult where
  success : Bool
  recordId : String
  error : Option String := none
  deriving DecidableEq

/-- One call made against the Dataverse web API (recorded so that claims
about which remote operations were invoked are expressible). -/
inductive ApiCall where
  | retrieveCall (collection : String) (query : String)
  | updateCall (collection : String) (entityId : String) (payload : UpdateData)
  deriving DecidableEq

/-- Whether a recorded call is an invocation of the remote update operation. -/
def ApiCall.isUpdateCall : ApiCall → Bool
  | ApiCall.retrieveCall _ _ => false
  | ApiCall.updateCall _ _ _ => true

/-- The Dataverse web API as an oracle: each operation either returns or
throws (`Except.error`). -/
structure WebAPI where
  retrieveMultipleRecords : String → String → Except JsError RetrieveResponse
  updateRecord : String → String → UpdateData → Except JsError Unit

/-- The apostrophe character, used in the OData filter strings the source
builds. -/
def apos : String := String.singleton (Char.ofNat 39)

/-- The filter query built (identically) for query 1 and query 2:
`?$filter=afsdc_name eq <id>&$select=afsdc_questionresponseinstanceid,afsdc_name`
with the id wrapped in apostrophes. -/
def filterQuery (cleanId : String) : String :=
  "?$filter=afsdc_name eq " ++ apos ++ cleanId ++ apos ++
    "&$select=afsdc_questionresponseinstanceid,afsdc_name"

/-- Query 3, the unfiltered access probe. -/
def probeQuery : String :=
  "?$select=afsdc_questionresponseinstanceid,afsdc_name&$top=5"

/-- The payload phase of the first `updateDataverseRecord`: each field is
set only when its source value is truthy and non-empty after trimming. -/
def buildUpdateData (row : ExcelRow) : UpdateData :=
  let u0 : UpdateData := {}
  let u1 :=
    if row.Response ≠ "" ∧ jsTrim row.Response ≠ "" then
      { u0 with afsdc_response := some (jsTrim row.Response) }
    else u0
  if row.Notes ≠ "" ∧ jsTrim row.Notes ≠ "" then
    { u1 with afsdc_comments := some (jsTrim row.Notes) }
  else u1

/-- The first `updateDataverseRecord` from the point where a retrieve call
has succeeded (the code after the nested try/catch ladder): the zero-result
check, the payload phase and the apply phase, with the outer catch turning
an update throw into an `Update failed:` outcome. -/
def applyPhase (api : WebAPI) (row : ExcelRow) (cleanId : String)
    (resp : RetrieveResponse) (calls : List ApiCall) : UpdateResult × List ApiCall :=
  if resp.entities.length = 0 then
    ({ success := false, recordId := row.ID,
       error := some ("Record not found: " ++ apos ++ cleanId ++ apos) }, calls)
  else
    let existingRecord := resp.entities.headD
      { afsdc_questionresponseinstanceid := "", afsdc_name := "" }
    let updateData := buildUpdateData row
    if updateData.isEmptyPayload then
      ({ success := false, recordId := row.ID,
         error := some "No data to update (Response and Notes are empty)" }, calls)
    else
      let c := ApiCall.updateCall "afsdc_questionresponseinstance"
        existingRecord.afsdc_questionresponseinstanceid updateData
      match api.updateRecord "afsdc_questionresponseinstance"
          existingRecord.afsdc_questionresponseinstanceid updateData with
      | Except.ok _ =>
        ({ success := true, recordId := row.ID, error := none }, calls ++ [c])
      | Except.error e =>
        ({ success := false, recordId := row.ID,
           error := some ("Update failed: " ++ updateFailedDetail e) }, calls ++ [c])

/-- The first copy of `updateDataverseRecord` (lines 472-602): the layered
lookup (primary collection, alternate collection name, unfiltered probe),
then the payload and apply phases.  Also returns the log of web API calls
made. -/
def updateDataverseRecord (api : WebAPI) (row : ExcelRow) : UpdateResult × List ApiCall :=
  let cleanId := jsTrim row.ID
  let q1 := filterQuery cleanId
  let c1 := ApiCall.retrieveCall "afsdc_questionresponseinstances" q1
  match api.retrieveMultipleRecords "afsdc_questionresponseinstances" q1 with
  | Except.ok resp => applyPhase api row cleanId resp [c1]
  | Except.error _ =>
    let q2 := filterQuery cleanId
    let c2 := ApiCall.retrieveCall "afsdc_questionresponseinstance" q2
    match api.retrieveMultipleRecords "afsdc_questionresponseinstance" q2 with
    | Except.ok resp => applyPhase api row cleanId resp [c1, c2]
    | Except.error _ =>
      let c3 := ApiCall.retrieveCall "afsdc_questionresponseinstances" probeQuery
      match api.retrieveMultipleRecords "afsdc_questionresponseinstances" probeQuery with
      | Except.ok _ =>
        ({ success := false, recordId := row.ID,
           error := some ("Record " ++ apos ++ cleanId ++ apos ++ " not found in entity") },
         [c1, c2, c3])
      | Except.error e3 =>
        ({ success := false, recordId := row.ID,
           error := some ("Entity access error: " ++ jsMessageOr e3 "Unknown error") },
         [c1, c2, c3])

/-- `Math.round(num / den)` for nonnegative operands: half-up rounding,
`floor(num / den + 1 / 2)`. -/
def mathRound (num den : Nat) : Nat :=
  (2 * num + den) / (2 * den)

/-- The loop of `processDataverseUpdates` (lines 344-366): processes the
remaining rows starting at index `i`, returning the accumulated results and
the progress percentages emitted via `updateModalProgress` after each
record. -/
def processLoop (api : WebAPI) (total : Nat) (i : Nat) :
    List ExcelRow → List UpdateResult × List Nat
  | [] => ([], [])
  | row :: rest =>
    let result := (updateDataverseRecord api row).1
    let progress := mathRound (100 * (i + 1)) total
    let tail := processLoop api total (i + 1) rest
    (result :: tail.1, progress :: tail.2)

/-- The first copy of `processDataverseUpdates` (lines 334-369): early
return on an empty record list, otherwise the sequential per-record loop.
Returns the ordered results and the ordered progress emissions. -/
def processDataverseUpdates (api : WebAPI) (rows : List ExcelRow) :
    List UpdateResult × List Nat :=
  if rows.length = 0 then ([], [])
  else processLoop api rows.length 0 rows

/-- The progress percentages emitted by `uploadAndProcessFile` (lines
123-207) as a function of the decoded grid: `0` at the start, `30` after
decoding, then — unless parsing throws or yields no records — `50` followed
by the per-record emissions of `processDataverseUpdates`. -/
def uploadAndProcessFile (api : WebAPI) (grid : List RawRow) : List Nat :=
  [0, 30] ++
    match parseExcelData grid with
    | Except.error _ => []
    | Except.ok parsed =>
      if parsed.length = 0 then []
      else [50] ++ (processDataverseUpdates api parsed).2

/-- A progress sequence is monotonically non-decreasing. -/
def nonDecList : List Nat → Bool
  | [] => true
  | [_] => true
  | a :: b :: rest => Nat.ble a b && nonDecList (b :: rest)

/-- API oracle for the concrete test runs: every retrieve finds one entity,
every update succeeds. -/
def entW : Entity := { afsdc_questionresponseinstanceid := "guid-1", afsdc_name := "A1" }

def apiAllOk : WebAPI where
  retrieveMultipleRecords := fun _ _ => Except.ok { entities := [entW] }
  updateRecord := fun _ _ _ => Except.ok ()

/-- API oracle whose primary-collection query throws while the alternate
collection name succeeds. -/
def apiC3 : WebAPI where
  retrieveMultipleRecords := fun collection _ =>
    if collection = "afsdc_questionresponseinstances" then
      Except.error { message := some "transport", asString := "transport" }
    else Except.ok { entities := [entW] }
  updateRecord := fun _ _ _ => Except.ok ()

/-- A header row plus three data rows, each with an id and a response. -/
def headerRow : RawRow := some [Cell.str "ID", Cell.str "Response", Cell.str "Notes"]

def grid3 : List RawRow :=
  [headerRow, some [Cell.str "A", Cell.str "R"], some [Cell.str "B", Cell.str "R"],
   some [Cell.str "C", Cell.str "R"]]

theorem parseLoopC1_eq_filterMap (l : List RawRow) :
    parseLoopC1 l = l.filterMap parseRowC1 := by
  induction l with
  | nil => rfl
  | cons row rest ih =>
    simp only [parseLoopC1, List.filterMap_cons]
    cases h : parseRowC1 row <;> simp [h, ih]

theorem parseRowC1_isSome_iff (row : RawRow) :
    (parseRowC1 row).isSome = true ↔
      ∃ cells, row = some cells ∧ 1 ≤ cells.length ∧ rowIdOf cells ≠ "" := by
  cases row with
  | none => simp [parseRowC1]
  | some cells =>
    simp only [parseRowC1]
    split_ifs with h1 h2 <;> simp_all

/-- Claim C2: for a grid with at least two rows, extraction succeeds, the
output is the in-order filter-map of the per-row extraction over the data
rows (so emission order equals row order and failing rows are dropped with
no error), and a row yields a record exactly when it is array-shaped, has at
least one column, and its column 0 yields a non-empty id under the
stringify-and-trim rule. -/
theorem claim2_extraction_iff (grid : List RawRow) (h : 2 ≤ grid.length) :
    parseExcelData grid = Except.ok ((grid.drop 1).filterMap parseRowC1)
    ∧ ∀ row : RawRow, (parseRowC1 row).isSome = true ↔
        ∃ cells, row = some cells ∧ 1 ≤ cells.length ∧ rowIdOf cells ≠ "" := by
  constructor
  · unfold parseExcelData
    rw [if_neg (by omega), parseLoopC1_eq_filterMap]
  · exact parseRowC1_isSome_iff

theorem claim2_witness :
    parseExcelData grid3 = Except.ok ((grid3.drop 1).filterMap parseRowC1) :=
  (claim2_extraction_iff grid3 (by decide)).1

/-- Claim C5: a grid with fewer than two rows makes extraction throw the
empty-input error before any record is produced. -/
theorem claim5_empty_input (grid : List RawRow) (h : grid.length < 2) :
    parseExcelData grid = Except.error emptyInputMsg := by
  unfold parseExcelData
  rw [if_pos h]

theorem claim5_witness : parseExcelData [] = Except.error emptyInputMsg :=
  claim5_empty_input [] (by decide)

/-- Claim C7, counterexample: on the row `["A1", "R2", "N2"]` the extracted
record is NOT `{ID := "A1", Response := "R2", Notes := "N2"}` — column index
2 is preferred for the response, so the response is `"N2"`. -/
theorem claim7_counterexample :
    (parseExcelData [headerRow, some [Cell.str "A1", Cell.str "R2", Cell.str "N2"]]).toOption ≠
      some [{ ID := "A1", Response := "R2", Notes := "N2" }] := by
  decide

/-- Claim C7, amended: on the row `["A1", "R2", "N2"]` (exactly three
columns) the response is `"N2"` (column index 2 is preferred over column
index 1) and the notes are empty (column index 2 was already consumed as the
response and there is no column index 3). -/
theorem claim7_amended :
    parseExcelData [headerRow, some [Cell.str "A1", Cell.str "R2", Cell.str "N2"]] =
      Except.ok [{ ID := "A1", Response := "N2", Notes := "" }] := by
  rfl

/-- Claim C8, counterexample: for the row `["A1", "X", " "]` the cell at
column index 2 is whitespace, hence empty after trimming, so the claim
requires the response to fall back to column index 1 and be `"X"`; the code
tests emptiness before trimming, takes column index 2, and extracts the
empty response instead. -/
theorem claim8_counterexample :
    (parseRowC1 (some [Cell.str "A1", Cell.str "X", Cell.str " "])).map ExcelRow.Response
      = some ""
    ∧ (parseRowC1 (some [Cell.str "A1", Cell.str "X", Cell.str " "])).map ExcelRow.Response
      ≠ some "X" := by
  constructor
  · rfl
  · decide


theorem cellAt_of_get? {cells : List Cell} {i : Nat} {c : Cell}
    (h : cells.get? i = some c) : cellAt cells i = c ∧ i < cells.length := by
  have hlt : i < cells.length := by
    by_contra hge
    rw [List.get?_eq_none.mpr (by omega)] at h
    exact Option.noConfusion h
  refine ⟨?_, hlt⟩
  rw [cellAt, List.getD_eq_getD_get?, h]
  rfl

theorem get?_of_lt_cell {cells : List Cell} {i : Nat} (h : i < cells.length) :
    cells.get? i = some (cellAt cells i) := by
  rw [List.get?_eq_get h, cellAt, List.getD_eq_getD_get?, List.get?_eq_get h]
  rfl

/-- Claim C8, amended: the extracted response is the trimmed value of column
index 2 when that cell is present and non-blank BEFORE trimming (not
undefined, not null, not the empty string); otherwise the trimmed value of
column index 1 when present and non-blank before trimming; otherwise the
empty string.  In particular for the row `["A1", "", "R", "N"]` the response
is `"R"` and the notes are `"N"`. -/
theorem claim8_amended (cells : List Cell) :
    (∀ c2, cells.get? 2 = some c2 → jsNonBlank c2 →
        responseOfRow cells = jsTrim (cellToString c2))
    ∧ ((∀ c2, cells.get? 2 = some c2 → ¬ jsNonBlank c2) →
        ∀ c1, cells.get? 1 = some c1 → jsNonBlank c1 →
          responseOfRow cells = jsTrim (cellToString c1))
    ∧ ((∀ c2, cells.get? 2 = some c2 → ¬ jsNonBlank c2) →
        (∀ c1, cells.get? 1 = some c1 → ¬ jsNonBlank c1) →
        responseOfRow cells = "")
    ∧ responseOfRow [Cell.str "A1", Cell.str "", Cell.str "R", Cell.str "N"] = "R"
    ∧ notesOfRow [Cell.str "A1", Cell.str "", Cell.str "R", Cell.str "N"] = "N" := by
  refine ⟨?_, ?_, ?_, by decide, by decide⟩
  · intro c2 h2 hnb
    obtain ⟨hc2, hlt⟩ := cellAt_of_get? h2
    rw [responseOfRow, if_pos ⟨hlt, hc2 ▸ hnb⟩, hc2]
  · intro hno2 c1 h1 hnb
    obtain ⟨hc1, hlt⟩ := cellAt_of_get? h1
    rw [responseOfRow, if_neg, if_pos ⟨hlt, hc1 ▸ hnb⟩, hc1]
    rintro ⟨hlt2, hnb2⟩
    exact hno2 _ (get?_of_lt_cell hlt2) hnb2
  · intro hno2 hno1
    rw [responseOfRow, if_neg, if_neg]
    · rintro ⟨hlt1, hnb1⟩
      exact hno1 _ (get?_of_lt_cell hlt1) hnb1
    · rintro ⟨hlt2, hnb2⟩
      exact hno2 _ (get?_of_lt_cell hlt2) hnb2

theorem claim8_witness :
    responseOfRow [Cell.str "A1", Cell.str "", Cell.str "R", Cell.str "N"]
      = jsTrim (cellToString (Cell.str "R")) :=
  (claim8_amended [Cell.str "A1", Cell.str "", Cell.str "R", Cell.str "N"]).1
    (Cell.str "R") (by decide) (by decide)

/-- Grid on which the two parser copies both succeed but disagree: the data
row has two columns, so copy one emits a record (response falls back to
column index 1) while copy two skips it (it requires three columns). -/
def gridC10 : List RawRow := [some [Cell.str "h"], some [Cell.str "A1", Cell.str "R2"]]

/-- Claim C10, counterexample: on `gridC10` both implementations succeed yet
return different record sequences. -/
theorem claim10_counterexample :
    (parseExcelData gridC10).toOption = some [{ ID := "A1", Response := "R2", Notes := "" }]
    ∧ (parseExcelDataV2 gridC10).toOption = some []
    ∧ ([{ ID := "A1", Response := "R2", Notes := "" }] : List ExcelRow) ≠ [] := by
  refine ⟨rfl, rfl, by decide⟩

/-- Claim C10, amended: the two `parseExcelData` implementations throw under
the same condition (fewer than two rows) with the same message, and both
succeed on every grid with at least two rows; but their record sequences
differ in general (copy two requires three columns, never trims, has no
column fallback and emits records with empty ids). -/
theorem claim10_amended (grid : List RawRow) :
    (grid.length < 2 →
      parseExcelData grid = Except.error emptyInputMsg
      ∧ parseExcelDataV2 grid = Except.error emptyInputMsg)
    ∧ (2 ≤ grid.length →
      (parseExcelData grid).toOption.isSome = true
      ∧ (parseExcelDataV2 grid).toOption.isSome = true) := by
  constructor
  · intro h
    constructor
    · rw [parseExcelData, if_pos h]
    · rw [parseExcelDataV2, if_pos h]
  · intro h
    constructor
    · rw [parseExcelData, if_neg (by omega)]
      rfl
    · rw [parseExcelDataV2, if_neg (by omega)]
      rfl

theorem claim10_witness :
    (parseExcelData [] = Except.error emptyInputMsg
      ∧ parseExcelDataV2 [] = Except.error emptyInputMsg)
    ∧ (parseExcelData gridC10).toOption.isSome = true :=
  ⟨(claim10_amended []).1 (by decide), ((claim10_amended gridC10).2 (by decide)).1⟩

theorem applyPhase_spec (api : WebAPI) (row : ExcelRow) (cleanId : String)
    (resp : RetrieveResponse) (calls : List ApiCall) :
    ((applyPhase api row cleanId resp calls).1.recordId = row.ID)
    ∧ ((applyPhase api row cleanId resp calls).1.success = true
       ∨ ((applyPhase api row cleanId resp calls).1.error).isSome = true) := by
  simp only [applyPhase]
  split
  · exact ⟨rfl, Or.inr rfl⟩
  · split
    · exact ⟨rfl, Or.inr rfl⟩
    · split
      · exact ⟨rfl, Or.inl rfl⟩
      · exact ⟨rfl, Or.inr rfl⟩

theorem updateDataverseRecord_spec (api : WebAPI) (row : ExcelRow) :
    ((updateDataverseRecord api row).1.recordId = row.ID)
    ∧ ((updateDataverseRecord api row).1.success = true
       ∨ ((updateDataverseRecord api row).1.error).isSome = true) := by
  simp only [updateDataverseRecord]
  split
  · exact applyPhase_spec ..
  · split
    · exact applyPhase_spec ..
    · split
      · exact ⟨rfl, Or.inr rfl⟩
      · exact ⟨rfl, Or.inr rfl⟩

theorem processLoop_results (api : WebAPI) (total : Nat) (rows : List ExcelRow) :
    ∀ i, (processLoop api total i rows).1 =
      rows.map fun row => (updateDataverseRecord api row).1 := by
  induction rows with
  | nil => intro i; rfl
  | cons row rest ih =>
    intro i
    simp only [processLoop, List.map_cons, ih]

theorem mapped_recordId (api : WebAPI) (rows : List ExcelRow) :
    ((rows.map fun row => (updateDataverseRecord api row).1).map fun r => r.recordId)
      = rows.map fun r => r.ID := by
  induction rows with
  | nil => rfl
  | cons row rest ih =>
    simp only [List.map_cons, ih, (updateDataverseRecord_spec api row).1]

theorem mapped_failure_as_data (api : WebAPI) (rows : List ExcelRow) :
    ((rows.map fun row => (updateDataverseRecord api row).1).all
      fun r => r.success || r.error.isSome) = true := by
  induction rows with
  | nil => rfl
  | cons row rest ih =>
    simp only [List.map_cons, List.all_cons, ih, Bool.and_true]
    rcases (updateDataverseRecord_spec api row).2 with h | h <;> simp [h]

theorem processDataverseUpdates_results (api : WebAPI) (rows : List ExcelRow) :
    (processDataverseUpdates api rows).1 =
      rows.map fun row => (updateDataverseRecord api row).1 := by
  unfold processDataverseUpdates
  split
  · cases rows with
    | nil => rfl
    | cons a l => simp_all
  · exact processLoop_results api rows.length rows 0

/-- Claim C1: processing a batch yields exactly one outcome per record, in
input order (the outcome list maps to the same id list as the input), and
every non-success outcome carries its failure detail as outcome data —
nothing escapes the per-record boundary, so no record is skipped. -/
theorem claim1_outcome_per_record (api : WebAPI) (rows : List ExcelRow) :
    ((processDataverseUpdates api rows).1.map fun r => r.recordId) = (rows.map fun r => r.ID)
    ∧ ((processDataverseUpdates api rows).1.all fun r => r.success || r.error.isSome) = true := by
  rw [processDataverseUpdates_results]
  exact ⟨mapped_recordId api rows, mapped_failure_as_data api rows⟩

/-- Claim C3: when the lookup against the primary collection
`afsdc_questionresponseinstances` throws, the identical filter query against
the alternate collection name `afsdc_questionresponseinstance` returns at
least one entity, and the subsequent update call (issued because the record
carries a non-empty payload) succeeds, the outcome is a success.  The
payload hypothesis makes "the subsequent update call" exist: with an empty
payload the code short-circuits before any update. -/
theorem claim3_fallback_success (api : WebAPI) (row : ExcelRow) (e : JsError)
    (resp : RetrieveResponse) (ent : Entity) (rest : List Entity)
    (h1 : api.retrieveMultipleRecords "afsdc_questionresponseinstances"
            (filterQuery (jsTrim row.ID)) = Except.error e)
    (h2 : api.retrieveMultipleRecords "afsdc_questionresponseinstance"
            (filterQuery (jsTrim row.ID)) = Except.ok resp)
    (hent : resp.entities = ent :: rest)
    (hpayload : (buildUpdateData row).isEmptyPayload = false)
    (hupd : api.updateRecord "afsdc_questionresponseinstance"
              ent.afsdc_questionresponseinstanceid (buildUpdateData row) = Except.ok ()) :
    (updateDataverseRecord api row).1.success = true := by
  simp only [updateDataverseRecord, h1, h2]
  simp only [applyPhase, hent, List.length_cons, Nat.succ_ne_zero, if_false,
    List.headD_cons, hpayload, Bool.false_eq_true, if_false, hupd]

theorem claim3_witness :
    (updateDataverseRecord apiC3 { ID := "A1", Response := "Yes", Notes := "" }).1.success
      = true :=
  claim3_fallback_success apiC3 { ID := "A1", Response := "Yes", Notes := "" }
    { message := some "transport", asString := "transport" } { entities := [entW] } entW []
    rfl rfl rfl rfl rfl

/-- Claim C4: a record whose response and notes are both empty after
trimming, and whose primary lookup resolves at least one entity, yields the
no-data-to-update outcome with `success = false`, and the call log contains
no invocation of the remote update operation. -/
theorem claim4_noop (api : WebAPI) (row : ExcelRow) (resp : RetrieveResponse)
    (ent : Entity) (rest : List Entity)
    (hresp : jsTrim row.Response = "") (hnotes : jsTrim row.Notes = "")
    (hret : api.retrieveMultipleRecords "afsdc_questionresponseinstances"
              (filterQuery (jsTrim row.ID)) = Except.ok resp)
    (hent : resp.entities = ent :: rest) :
    (updateDataverseRecord api row).1 =
      { success := false, recordId := row.ID,
        error := some "No data to update (Response and Notes are empty)" }
    ∧ ((updateDataverseRecord api row).2.all fun c => !c.isUpdateCall) = true := by
  have hbuild : buildUpdateData row = {} := by
    unfold buildUpdateData
    rw [if_neg, if_neg]
    · rintro ⟨-, h⟩
      exact h hresp
    · rintro ⟨-, h⟩
      exact h hnotes
  simp only [updateDataverseRecord, hret]
  simp only [applyPhase, hent, List.length_cons, Nat.succ_ne_zero, if_false, hbuild]
  constructor
  · rfl
  · rfl

theorem claim4_witness :
    (updateDataverseRecord apiAllOk { ID := "A1", Response := " ", Notes := "" }).1 =
      { success := false, recordId := "A1",
        error := some "No data to update (Response and Notes are empty)" }
    ∧ ((updateDataverseRecord apiAllOk
          { ID := "A1", Response := " ", Notes := "" }).2.all fun c => !c.isUpdateCall)
      = true :=
  claim4_noop apiAllOk { ID := "A1", Response := " ", Notes := "" }
    { entities := [entW] } entW [] (by decide) (by decide) rfl rfl

theorem mathRound_full {N : Nat} (h : 0 < N) : mathRound (100 * N) N = 100 := by
  unfold mathRound
  have h201 : 2 * (100 * N) + N = 201 * N := by ring
  rw [h201, Nat.mul_comm 201 N, Nat.mul_comm 2 N, Nat.mul_div_mul_left 201 2 h]

theorem mathRound_mono {a b N : Nat} (h : a ≤ b) : mathRound a N ≤ mathRound b N := by
  unfold mathRound
  exact Nat.div_le_div_right (by omega)

theorem mathRound_le_100 {k N : Nat} (hk : k ≤ N) (hN : 0 < N) :
    mathRound (100 * k) N ≤ 100 := by
  calc mathRound (100 * k) N ≤ mathRound (100 * N) N :=
        mathRound_mono (by omega)
    _ = 100 := mathRound_full hN

theorem processLoop_trace (api : WebAPI) (total : Nat) (rows : List ExcelRow) :
    ∀ i, (processLoop api total i rows).2 =
      (List.range' (i + 1) rows.length).map fun k => mathRound (100 * k) total := by
  induction rows with
  | nil => intro i; rfl
  | cons row rest ih =>
    intro i
    simp only [processLoop, List.length_cons, List.range'_succ, List.map_cons, ih]

/-- Claim C6: for a non-empty batch the per-record progress emissions are
exactly `round(100 * 1 / N), ..., round(100 * N / N)`, and the final value is
`100`. -/
theorem claim6_progress_values (api : WebAPI) (rows : List ExcelRow)
    (h : 0 < rows.length) :
    (processDataverseUpdates api rows).2 =
      (List.range' 1 rows.length).map (fun k => mathRound (100 * k) rows.length)
    ∧ mathRound (100 * rows.length) rows.length = 100 := by
  constructor
  · unfold processDataverseUpdates
    rw [if_neg (by omega)]
    exact processLoop_trace api rows.length rows 0
  · exact mathRound_full h

theorem claim6_witness :
    (processDataverseUpdates apiAllOk [{ ID := "A", Response := "R", Notes := "" }]).2 =
      (List.range' 1 1).map (fun k => mathRound (100 * k) 1)
    ∧ mathRound (100 * 1) 1 = 100 :=
  claim6_progress_values apiAllOk [{ ID := "A", Response := "R", Notes := "" }] (by decide)

theorem nonDec_roundTrace (total : Nat) :
    ∀ n s, nonDecList ((List.range' s n).map fun k => mathRound (100 * k) total) = true := by
  intro n
  induction n with
  | zero => intro s; rfl
  | succ m ih =>
    intro s
    cases m with
    | zero => rfl
    | succ m2 =>
      have hrec := ih (s + 1)
      rw [List.range'_succ, List.map_cons] at hrec
      rw [List.range'_succ, List.map_cons, List.range'_succ, List.map_cons]
      simp only [nonDecList, Bool.and_eq_true]
      exact ⟨Nat.ble_eq.mpr (mathRound_mono (by omega)), hrec⟩

theorem trace_bounded (api : WebAPI) (rows : List ExcelRow) :
    ∀ p ∈ (processDataverseUpdates api rows).2, p ≤ 100 := by
  intro p hp
  unfold processDataverseUpdates at hp
  by_cases h : rows.length = 0
  · rw [if_pos h] at hp
    simp at hp
  · rw [if_neg h, processLoop_trace] at hp
    simp only [List.mem_map] at hp
    obtain ⟨k, hk, rfl⟩ := hp
    have hr := List.mem_range'_1.mp hk
    exact mathRound_le_100 (by omega) (by omega)

/-- Claim C9, amended: every progress value emitted across an upload batch
lies in 0-100, and the per-record progress sequence emitted by
`processDataverseUpdates` is monotonically non-decreasing; the full emitted
sequence is not monotone in general, because the fixed pre-processing
milestones 0, 30, 50 can exceed the first per-record percentages. -/
theorem claim9_amended (api : WebAPI) (grid : List RawRow) (rows : List ExcelRow) :
    (∀ p ∈ uploadAndProcessFile api grid, p ≤ 100)
    ∧ nonDecList (processDataverseUpdates api rows).2 = true := by
  constructor
  · intro p hp
    unfold uploadAndProcessFile at hp
    rw [List.mem_append] at hp
    rcases hp with hp | hp
    · simp only [List.mem_cons, List.not_mem_nil, or_false] at hp
      rcases hp with rfl | rfl <;> omega
    · split at hp
      · simp at hp
      · split at hp
        · simp at hp
        · rw [List.cons_append, List.nil_append, List.mem_cons] at hp
          rcases hp with rfl | hp
          · omega
          · exact trace_bounded api _ p hp
  · unfold processDataverseUpdates
    split
    · rfl
    · rw [processLoop_trace]
      exact nonDec_roundTrace rows.length rows.length (0 + 1)

/-- Claim C9, counterexample: with three records, the full progress sequence
is `[0, 30, 50, 33, 67, 100]` — the milestone 50 emitted before record
processing exceeds the first per-record value 33, so the emitted sequence is
not monotonically non-decreasing. -/
theorem claim9_counterexample :
    nonDecList (uploadAndProcessFile apiAllOk grid3) = false := by
  decide

theorem claim9_witness :
    (0 : Nat) ≤ 100
    ∧ nonDecList (processDataverseUpdates apiAllOk
        [{ ID := "A", Response := "R", Notes := "" }]).2 = true :=
  ⟨(claim9_amended apiAllOk grid3 [{ ID := "A", Response := "R", Notes := "" }]).1 0
      (by decide),
   (claim9_amended apiAllOk grid3 [{ ID := "A", Response := "R", Notes := "" }]).2⟩
